import Mathlib

/-!
Verification of the pirsch-js-sdk authentication/request core.

The definitions below are a shallow embedding of the TypeScript sources:
  - `core.ts` (`PirschCoreClient`, the abstract client with the
    retry-on-401 protocol, DNT filtering and access-mode gating),
  - `common.ts` (`PirschCommon` credential assertions and the
    `PirschApiError` hierarchy),
  - `client.ts` (`PirschNodeApiClient.getReferrer` and `getHeader`),
  - `constants.ts` (endpoint paths and validation constants).

Machine strings are modelled as Lean `String`, numbers as `Nat`/`Int`,
optional fields as `Option`, thrown exceptions as `Except`, and the
injected HTTP transport (together with the `toApiError` normalisation
hook, which by contract is total) as an oracle answering the n-th
request-endpoint call and the n-th token-endpoint call.  All network
calls made during an operation are recorded in an explicit log.
-/

namespace PirschSDK

/-! ## Constants (constants.ts) -/

def PIRSCH_DEFAULT_BASE_URL : String := "https://api.pirsch.io"

def PIRSCH_DEFAULT_TIMEOUT : Nat := 5000

def PIRSCH_REFERRER_QUERY_PARAMETERS : List String :=
  ["ref", "referer", "referrer", "source", "utm_source"]

/-- Embeds the constant holding the required access-token leading
characters from constants.ts (value "pa_"); renamed for this file. -/
def PIRSCH_ACCESS_TOKEN_START : String := "pa_"

def PIRSCH_CLIENT_ID_LENGTH : Nat := 32

def PIRSCH_CLIENT_SECRET_LENGTH : Nat := 64

def PIRSCH_ACCESS_TOKEN_LENGTH : Nat := 45

/-! ## Error model (common.ts) -/

/-- A single quote character, used to build the error message strings
without a literal apostrophe in the source of this file. -/
def sq : String := String.singleton (Char.ofNat 39)

/-- `PirschApiError` and its subclasses, modelled by their
distinguishing `name`, HTTP `code` and `error` message list. -/
structure PirschApiError where
  name : String
  code : Nat
  error : List String
deriving DecidableEq, Repr

def pirschApiError (code : Nat) (error : List String) : PirschApiError :=
  { name := "PirschApiError", code := code, error := error }

def pirschDomainNotFoundApiError : PirschApiError :=
  { name := "PirschDomainNotFoundApiError", code := 404, error := ["domain not found!"] }

def invalidAccessModeMessage (methodName : String) : String :=
  "you are trying to run the data-accessing method " ++ sq ++ methodName ++ sq ++
    ", which is not possible with access tokens. please use a oauth id and secret!"

def pirschInvalidAccessModeApiError (methodName : String) : PirschApiError :=
  { name := "PirschInvalidAccessModeApiError", code := 401,
    error := [invalidAccessModeMessage methodName] }

/-! ## Credential validation (common.ts, PirschCommon) -/

/-- A failure thrown during client construction: either an `Error` with a
message (a configuration error) or the JavaScript `TypeError` raised by
reading a property of `undefined`. -/
inductive ConstructError where
  | configError (message : String)
  | typeError
deriving DecidableEq, Repr

/-- Models reading `.length` of a possibly-undefined string. -/
def jsLength : Option String → Except ConstructError Nat
  | some s => Except.ok s.length
  | none => Except.error ConstructError.typeError

/-- `String.prototype.startsWith`, stated on the character lists so that
it evaluates by kernel reduction. -/
def strStartsWith (s p : String) : Bool :=
  p.data.isPrefixOf s.data

/-- Models calling `.startsWith(p)` on a possibly-undefined string. -/
def jsStartsWith (s : Option String) (p : String) : Except ConstructError Bool :=
  match s with
  | some s => Except.ok (strStartsWith s p)
  | none => Except.error ConstructError.typeError

def invalidClientIdMessage : String :=
  "Invalid Client ID, should be of length " ++ sq ++
    toString PIRSCH_CLIENT_ID_LENGTH ++ sq ++ "!"

def invalidAccessTokenStartMessage : String :=
  "Invalid Access Token, should start with " ++ sq ++ PIRSCH_ACCESS_TOKEN_START ++ sq ++ "!"

def invalidAccessTokenLengthMessage : String :=
  "Invalid Access Token, should be of length " ++ sq ++
    toString PIRSCH_ACCESS_TOKEN_LENGTH ++ sq ++ "!"

def missingCredentialsMessage : String :=
  "Missing credentials, please supply either " ++ sq ++
    "\x7b\"clientId\":\"value\",\"clientSecret\":\"value\"\x7d" ++ sq ++ " or  " ++ sq ++
    "\x7b\"accessToken\":\"value\"\x7d" ++ sq ++ "!"

/-- `PirschCommon.assertOauthCredentials`.  Note the second branch of the
source re-uses the client-ID message text for the client-secret length
check. -/
def assertOauthCredentials (clientId clientSecret : Option String) :
    Except ConstructError Unit :=
  match jsLength clientId with
  | Except.error e => Except.error e
  | Except.ok idLength =>
    if idLength ≠ PIRSCH_CLIENT_ID_LENGTH then
      Except.error (ConstructError.configError invalidClientIdMessage)
    else
      match jsLength clientSecret with
      | Except.error e => Except.error e
      | Except.ok secretLength =>
        if secretLength ≠ PIRSCH_CLIENT_SECRET_LENGTH then
          Except.error (ConstructError.configError invalidClientIdMessage)
        else
          Except.ok ()

/-- `PirschCommon.assertAccessTokenCredentials`. -/
def assertAccessTokenCredentials (accessToken : Option String) :
    Except ConstructError Unit :=
  match jsStartsWith accessToken PIRSCH_ACCESS_TOKEN_START with
  | Except.error e => Except.error e
  | Except.ok starts =>
    if ¬ starts then
      Except.error (ConstructError.configError invalidAccessTokenStartMessage)
    else
      match jsLength accessToken with
      | Except.error e => Except.error e
      | Except.ok tokenLength =>
        if tokenLength ≠ PIRSCH_ACCESS_TOKEN_LENGTH + PIRSCH_ACCESS_TOKEN_START.length then
          Except.error (ConstructError.configError invalidAccessTokenLengthMessage)
        else
          Except.ok ()

/-! ## Client construction (core.ts constructor) -/

inductive PirschAccessMode where
  | oauth
  | accessToken
deriving DecidableEq, Repr

/-- The fields of `PirschCoreClient` that the claims concern: the
readonly configuration plus the mutable `accessToken`. -/
structure CoreState where
  accessMode : PirschAccessMode
  clientId : Option String
  clientSecret : Option String
  baseUrl : String
  timeout : Nat
  accessToken : String
deriving DecidableEq, Repr

/-- `PirschClientConfig`: key presence in the configuration object is
modelled by `Option.isSome`. -/
structure PirschClientConfig where
  baseUrl : Option String
  timeout : Option Nat
  accessToken : Option String
  clientId : Option String
  clientSecret : Option String
deriving DecidableEq, Repr

/-- The `PirschCoreClient` constructor. -/
def makeClient (configuration : PirschClientConfig) : Except ConstructError CoreState :=
  let baseUrl := configuration.baseUrl.getD PIRSCH_DEFAULT_BASE_URL
  let timeout := configuration.timeout.getD PIRSCH_DEFAULT_TIMEOUT
  if configuration.accessToken.isSome then
    match assertAccessTokenCredentials configuration.accessToken with
    | Except.error e => Except.error e
    | Except.ok _ =>
      Except.ok { accessMode := PirschAccessMode.accessToken, clientId := none,
                  clientSecret := none, baseUrl := baseUrl, timeout := timeout,
                  accessToken := configuration.accessToken.getD "" }
  else if configuration.clientId.isSome ∨ configuration.clientSecret.isSome then
    match assertOauthCredentials configuration.clientId configuration.clientSecret with
    | Except.error e => Except.error e
    | Except.ok _ =>
      Except.ok { accessMode := PirschAccessMode.oauth, clientId := configuration.clientId,
                  clientSecret := configuration.clientSecret, baseUrl := baseUrl,
                  timeout := timeout, accessToken := "" }
  else
    Except.error (ConstructError.configError missingCredentialsMessage)

/-! ## Tracking payloads (types.ts) -/

/-- `Scalar = string | number | boolean`. -/
inductive Scalar where
  | str (s : String)
  | num (n : Int)
  | bool (b : Bool)
deriving DecidableEq, Repr

/-- Models JavaScript `value.toString()` for a scalar. -/
def Scalar.toDisplayString : Scalar → String
  | Scalar.str s => s
  | Scalar.num n => toString n
  | Scalar.bool b => if b then "true" else "false"

/-- `PirschCommon.prepareScalarObject`: string values pass through,
numbers and booleans are stringified; an absent mapping stays absent. -/
def prepareScalarObject : Option (List (String × Scalar)) → Option (List (String × String))
  | none => none
  | some value =>
    some (value.map (fun kv =>
      match kv.2 with
      | Scalar.str s => (kv.1, s)
      | v => (kv.1, v.toDisplayString)))

/-- `PirschHit` (the variant consumed by the core, which reads the
optional `dnt` field). -/
structure Hit where
  url : String
  ip : String
  user_agent : String
  accept_language : Option String
  sec_ch_ua : Option String
  sec_ch_ua_mobile : Option String
  sec_ch_ua_platform : Option String
  sec_ch_ua_platform_version : Option String
  sec_ch_width : Option String
  sec_ch_viewport_width : Option String
  title : Option String
  referrer : Option String
  screen_width : Option Nat
  screen_height : Option Nat
  tags : Option (List (String × Scalar))
  dnt : Option String
deriving DecidableEq, Repr

/-- `PirschBatchHit extends PirschHit { time }`. -/
structure BatchHit extends Hit where
  time : String
deriving DecidableEq, Repr

/-- `PirschSession` (`ip`, `user_agent` and the `dnt` field the core
reads). -/
structure Session where
  ip : String
  user_agent : String
  dnt : Option String
deriving DecidableEq, Repr

/-- `PirschBatchSession extends PirschSession { time }`. -/
structure BatchSession extends Session where
  time : String
deriving DecidableEq, Repr

/-- The `PirschEvent` object built by `PirschCoreClient.event`; the
spread of the base hit is kept as a nested field. -/
structure Event where
  event_name : String
  event_duration : Nat
  event_meta : Option (List (String × String))
  hit : Hit
deriving DecidableEq, Repr

/-- The `PirschBatchEvent` object built by
`PirschCoreClient.batchEvents`. -/
structure BatchEvent where
  event_name : String
  event_duration : Nat
  event_meta : Option (List (String × String))
  time : String
  hit : Hit
deriving DecidableEq, Repr

/-- One item of the `batchEvents` argument list. -/
structure EventInput where
  name : String
  hit : Hit
  time : String
  duration : Option Nat
  meta : Option (List (String × Scalar))
deriving DecidableEq, Repr

/-- The body of an outbound POST. -/
inductive Payload where
  | hit (h : Hit)
  | hits (hs : List BatchHit)
  | event (e : Event)
  | events (es : List BatchEvent)
  | session (s : Session)
  | sessions (ss : List BatchSession)
  | credentials (client_id client_secret : Option String)
deriving DecidableEq, Repr

/-! ## Transport oracle and call log -/

/-- A decoded response body: either an array of opaque records or an
opaque non-array value. -/
inductive ApiData where
  | arr (items : List String)
  | val (v : String)
deriving DecidableEq, Repr

/-- Query string parameters sent with a GET. -/
abbrev Params := List (String × String)

/-- One HTTP call issued through the injected transport. -/
structure CallRecord where
  url : String
  isPost : Bool
  bearer : Option String
  payload : Option Payload
  parameters : Option Params
deriving DecidableEq, Repr

/-- `PirschCoreClient.generateUrl`. -/
def generateUrl (path : String) : String :=
  "/" ++ String.intercalate "/" ["api", "v1", path]

/-- The generated URL of the token endpoint (`PirschEndpoint.AUTHENTICATION`). -/
def authUrl : String := generateUrl "token"

/-- Number of token-endpoint calls in a log (refresh network calls). -/
def tokenCalls (log : List CallRecord) : Nat :=
  (log.filter (fun c => c.url == authUrl)).length

/-- Number of non-token transport invocations in a log. -/
def requestCalls (log : List CallRecord) : Nat :=
  (log.filter (fun c => c.url != authUrl)).length

/-- The transport/normalisation environment: the n-th call to the
request endpoint and the n-th call to the token endpoint each either
deliver a decoded body or fail with an error already normalised by the
(total, by contract) `toApiError` hook. -/
structure Env where
  onRequest : Nat → Except PirschApiError ApiData
  onToken : Nat → Except PirschApiError String

/-! ## The request core (core.ts) -/

/-- `PirschCoreClient.refreshToken`: a no-op in access-token mode;
otherwise posts the OAuth credentials to the token endpoint, storing the
returned token on success and clearing the token to the empty string on
failure.  The error is returned as a value, never thrown. -/
def refreshToken (env : Env) (s : CoreState) (log : List CallRecord) :
    Option PirschApiError × CoreState × List CallRecord :=
  if s.accessMode = PirschAccessMode.accessToken then
    (none, s, log)
  else
    let record : CallRecord :=
      { url := authUrl, isPost := true, bearer := none,
        payload := some (Payload.credentials s.clientId s.clientSecret),
        parameters := none }
    match env.onToken (tokenCalls log) with
    | Except.ok token => (none, { s with accessToken := token }, log ++ [record])
    | Except.error e => (some e, { s with accessToken := "" }, log ++ [record])

/-- `PirschCoreClient.performPost`.  The single recursive call (which
passes `retry = false`) is unrolled into the branch body: with
`retry = false` the 401 guard can never fire again, so the unrolling is
exact.  The returned value of the inner `refreshToken` call is
discarded, exactly as in the source. -/
def performPost (env : Env) (path : String) (data : Payload) (retry : Bool)
    (s : CoreState) (log : List CallRecord) :
    Except PirschApiError Unit × CoreState × List CallRecord :=
  let record : CallRecord :=
    { url := generateUrl path, isPost := true, bearer := some s.accessToken,
      payload := some data, parameters := none }
  match env.onRequest (requestCalls log) with
  | Except.ok _ => (Except.ok (), s, log ++ [record])
  | Except.error exception =>
    if s.accessMode = PirschAccessMode.oauth ∧ exception.code = 401 ∧ retry = true then
      let r := refreshToken env s (log ++ [record])
      let s1 := r.2.1
      let log1 := r.2.2
      let record1 : CallRecord :=
        { url := generateUrl path, isPost := true, bearer := some s1.accessToken,
          payload := some data, parameters := none }
      match env.onRequest (requestCalls log1) with
      | Except.ok _ => (Except.ok (), s1, log1 ++ [record1])
      | Except.error exception1 => (Except.error exception1, s1, log1 ++ [record1])
    else
      (Except.error exception, s, log ++ [record])

/-- The attempt/catch part of `PirschCoreClient.performGet`, after the
proactive refresh has been handled: issue the GET with the current
token; on a 401 in OAuth mode with the retry still available, refresh
(discarding its returned error) and issue the same GET exactly once
more (the unrolled `retry = false` call, whose guard can never fire). -/
def getRequest (env : Env) (path : String) (parameters : Params) (retry : Bool)
    (s0 : CoreState) (log0 : List CallRecord) :
    Except PirschApiError ApiData × CoreState × List CallRecord :=
  let record : CallRecord :=
    { url := generateUrl path, isPost := false, bearer := some s0.accessToken,
      payload := none, parameters := some parameters }
  match env.onRequest (requestCalls log0) with
  | Except.ok data => (Except.ok data, s0, log0 ++ [record])
  | Except.error exception =>
    if s0.accessMode = PirschAccessMode.oauth ∧ exception.code = 401 ∧ retry = true then
      let r := refreshToken env s0 (log0 ++ [record])
      let s1 := r.2.1
      let log1 := r.2.2
      let record1 : CallRecord :=
        { url := generateUrl path, isPost := false, bearer := some s1.accessToken,
          payload := none, parameters := some parameters }
      match env.onRequest (requestCalls log1) with
      | Except.ok data => (Except.ok data, s1, log1 ++ [record1])
      | Except.error exception1 => (Except.error exception1, s1, log1 ++ [record1])
    else
      (Except.error exception, s0, log0 ++ [record])

/-- `PirschCoreClient.performGet`: when the token is empty and this is
not already the retry, a proactive refresh runs first (its returned
error, if any, is discarded), then the attempt/catch body runs. -/
def performGet (env : Env) (path : String) (parameters : Params) (retry : Bool)
    (s : CoreState) (log : List CallRecord) :
    Except PirschApiError ApiData × CoreState × List CallRecord :=
  let pre := if s.accessToken = "" ∧ retry = true then refreshToken env s log else (none, s, log)
  getRequest env path parameters retry pre.2.1 pre.2.2

/-- `PirschCoreClient.performFilteredGet`. -/
def performFilteredGet (env : Env) (url : String) (filter : Params)
    (s : CoreState) (log : List CallRecord) :
    Except PirschApiError ApiData × CoreState × List CallRecord :=
  performGet env url filter true s log

/-! ## Tracking methods (core.ts) -/

/-- `PirschCoreClient.hit`. -/
def hit (env : Env) (h : Hit) (s : CoreState) (log : List CallRecord) :
    Except PirschApiError Unit × CoreState × List CallRecord :=
  if h.dnt = some "1" then (Except.ok (), s, log)
  else performPost env "hit" (Payload.hit h) true s log

/-- `PirschCoreClient.batchHits`. -/
def batchHits (env : Env) (hits : List BatchHit) (s : CoreState) (log : List CallRecord) :
    Except PirschApiError Unit × CoreState × List CallRecord :=
  let filtered := hits.filter (fun hit => hit.dnt != some "1")
  if filtered.length = 0 then (Except.ok (), s, log)
  else performPost env "hit/batch" (Payload.hits filtered) true s log

/-- `PirschCoreClient.event` (duration defaults to 0 at the call site in
the source signature, so the caller passes it explicitly here). -/
def event (env : Env) (name : String) (h : Hit) (duration : Nat)
    (meta : Option (List (String × Scalar))) (s : CoreState) (log : List CallRecord) :
    Except PirschApiError Unit × CoreState × List CallRecord :=
  if h.dnt = some "1" then (Except.ok (), s, log)
  else
    let ev : Event :=
      { event_name := name, event_duration := duration,
        event_meta := prepareScalarObject meta, hit := h }
    performPost env "event" (Payload.event ev) true s log

/-- `PirschCoreClient.batchEvents`. -/
def batchEvents (env : Env) (events : List EventInput) (s : CoreState) (log : List CallRecord) :
    Except PirschApiError Unit × CoreState × List CallRecord :=
  let filtered := events.filter (fun ev => ev.hit.dnt != some "1")
  if filtered.length = 0 then (Except.ok (), s, log)
  else
    let results := filtered.map (fun ev =>
      ({ event_name := ev.name, event_duration := ev.duration.getD 0,
         event_meta := prepareScalarObject ev.meta, time := ev.time,
         hit := ev.hit } : BatchEvent))
    performPost env "event/batch" (Payload.events results) true s log

/-- `PirschCoreClient.session`. -/
def session (env : Env) (se : Session) (s : CoreState) (log : List CallRecord) :
    Except PirschApiError Unit × CoreState × List CallRecord :=
  if se.dnt = some "1" then (Except.ok (), s, log)
  else performPost env "session" (Payload.session se) true s log

/-- `PirschCoreClient.batchSessions`. -/
def batchSessions (env : Env) (sessions : List BatchSession) (s : CoreState)
    (log : List CallRecord) :
    Except PirschApiError Unit × CoreState × List CallRecord :=
  let filtered := sessions.filter (fun se => se.dnt != some "1")
  if filtered.length = 0 then (Except.ok (), s, log)
  else performPost env "session/batch" (Payload.sessions filtered) true s log

/-! ## Statistics reads and access-mode gating (core.ts) -/

/-- `PirschCoreClient.accessModeCheck`: the thrown
`PirschInvalidAccessModeApiError` is modelled as a returned `some`. -/
def accessModeCheck (methodName : String) (s : CoreState) : Option PirschApiError :=
  if s.accessMode = PirschAccessMode.accessToken then
    some (pirschInvalidAccessModeApiError methodName)
  else
    none

/-- The body shared by every statistics-read method of
`PirschCoreClient`: run `accessModeCheck` (whose thrown error rejects
the call), then `performFilteredGet` on the method-specific path. -/
def statisticsRead (env : Env) (methodName : String) (path : String) (filter : Params)
    (s : CoreState) (log : List CallRecord) :
    Except PirschApiError ApiData × CoreState × List CallRecord :=
  match accessModeCheck methodName s with
  | some e => (Except.error e, s, log)
  | none => performFilteredGet env path filter s log

/-- Every statistics-read method of `PirschCoreClient`, with the
`PirschEndpoint` path it passes to `performFilteredGet`. -/
def statisticsMethods : List (String × String) :=
  [ ("sessionDuration", "statistics/duration/session"),
    ("timeOnPage", "statistics/duration/page"),
    ("utmSource", "statistics/utm/source"),
    ("utmMedium", "statistics/utm/medium"),
    ("utmCampaign", "statistics/utm/campaign"),
    ("utmContent", "statistics/utm/content"),
    ("utmTerm", "statistics/utm/term"),
    ("totalVisitors", "statistics/total"),
    ("visitors", "statistics/visitor"),
    ("entryPages", "statistics/page/entry"),
    ("exitPages", "statistics/page/exit"),
    ("pages", "statistics/page"),
    ("conversionGoals", "statistics/goals"),
    ("events", "statistics/events"),
    ("eventMetadata", "statistics/event/meta"),
    ("listEvents", "statistics/event/list"),
    ("growth", "statistics/growth"),
    ("activeVisitors", "statistics/active"),
    ("timeOfDay", "statistics/hours"),
    ("languages", "statistics/language"),
    ("referrer", "statistics/referrer"),
    ("os", "statistics/os"),
    ("osVersions", "statistics/os/version"),
    ("browser", "statistics/browser"),
    ("browserVersions", "statistics/browser/version"),
    ("country", "statistics/country"),
    ("city", "statistics/city"),
    ("platform", "statistics/platform"),
    ("screen", "statistics/screen"),
    ("keywords", "statistics/keywords") ]

/-- The value returned by `PirschCoreClient.domain`: a domain record,
an error object returned (not thrown) by the post-processing, or a
non-array body passed through unchanged. -/
inductive DomainOutcome where
  | found (d : String)
  | missing (e : PirschApiError)
  | raw (v : ApiData)
deriving DecidableEq, Repr

/-- `PirschCoreClient.domain`: gate on the access mode, GET the domain
endpoint, then post-process an array response (empty array becomes the
domain-not-found error object, otherwise `result.at(0)`). -/
def domain (env : Env) (s : CoreState) (log : List CallRecord) :
    Except PirschApiError DomainOutcome × CoreState × List CallRecord :=
  match accessModeCheck "domain" s with
  | some e => (Except.error e, s, log)
  | none =>
    let r := performGet env "domain" [] true s log
    match r.1 with
    | Except.error e => (Except.error e, r.2.1, r.2.2)
    | Except.ok result =>
      match result with
      | ApiData.arr items =>
        if items.length = 0 then
          (Except.ok (DomainOutcome.missing pirschDomainNotFoundApiError), r.2.1, r.2.2)
        else
          (Except.ok (match items.get? 0 with
            | some d => DomainOutcome.found d
            | none => DomainOutcome.missing pirschDomainNotFoundApiError), r.2.1, r.2.2)
      | other => (Except.ok (DomainOutcome.raw other), r.2.1, r.2.2)

/-! ## Referrer resolution (client.ts, PirschNodeApiClient) -/

/-- A Node header value: a string or an array of strings. -/
inductive HeaderValue where
  | str (s : String)
  | arr (l : List String)
deriving DecidableEq, Repr

abbrev Headers := List (String × HeaderValue)

abbrev Query := List (String × String)

/-- `PirschNodeApiClient.getHeader`: an array header yields its first
element (possibly absent), a string header yields itself. -/
def getHeader (headers : Headers) (name : String) : Option String :=
  match headers.lookup name with
  | some (HeaderValue.arr l) => l.get? 0
  | some (HeaderValue.str s) => some s
  | none => none

/-- `url.searchParams.get`: the first value recorded under the name. -/
def searchParamsGet (query : Query) (name : String) : Option String :=
  (query.find? (fun kv => kv.1 == name)).map (fun kv => kv.2)

/-- The query-parameter loop inside `PirschNodeApiClient.getReferrer`:
the first parameter in the given name list that is present and
non-empty. -/
def referrerFromQuery (query : Query) : List String → Option String
  | [] => none
  | parameterName :: rest =>
    match searchParamsGet query parameterName with
    | some parameter =>
      if parameter ≠ "" then some parameter else referrerFromQuery query rest
    | none => referrerFromQuery query rest

/-- `PirschNodeApiClient.getReferrer`. -/
def getReferrer (headers : Headers) (query : Query) : String :=
  let referrer := (getHeader headers "referer").getD ((getHeader headers "referrer").getD "")
  if referrer = "" then
    match referrerFromQuery query PIRSCH_REFERRER_QUERY_PARAMETERS with
    | some parameter => parameter
    | none => referrer
  else
    referrer

/-! ## Concrete fixtures used by witnesses and counterexamples -/

/-- A hit with every optional field absent. -/
def plainHit : Hit :=
  { url := "https://example.com/", ip := "10.0.0.1", user_agent := "agent",
    accept_language := none, sec_ch_ua := none, sec_ch_ua_mobile := none,
    sec_ch_ua_platform := none, sec_ch_ua_platform_version := none,
    sec_ch_width := none, sec_ch_viewport_width := none, title := none,
    referrer := none, screen_width := none, screen_height := none,
    tags := none, dnt := none }

/-- The same hit carrying the do-not-track marker. -/
def dntHit : Hit := { plainHit with dnt := some "1" }

def plainBatchHit : BatchHit := { toHit := plainHit, time := "2023-01-01T00:00:00Z" }

def dntBatchHit : BatchHit := { toHit := dntHit, time := "2023-01-01T00:00:01Z" }

def plainSession : Session := { ip := "10.0.0.1", user_agent := "agent", dnt := none }

def dntSession : Session := { plainSession with dnt := some "1" }

def plainBatchSession : BatchSession :=
  { toSession := plainSession, time := "2023-01-01T00:00:00Z" }

def dntBatchSession : BatchSession :=
  { toSession := dntSession, time := "2023-01-01T00:00:01Z" }

def plainEventInput : EventInput :=
  { name := "clicked", hit := plainHit, time := "2023-01-01T00:00:00Z",
    duration := none, meta := none }

def dntEventInput : EventInput :=
  { name := "clicked", hit := dntHit, time := "2023-01-01T00:00:01Z",
    duration := none, meta := none }

/-- An OAuth-mode client state holding a (non-empty) access token. -/
def oauthState : CoreState :=
  { accessMode := PirschAccessMode.oauth,
    clientId := some "0123456789abcdef0123456789abcdef",
    clientSecret := some "0123456789abcdef0123456789abcdef0123456789abcdef0123456789abcdef",
    baseUrl := PIRSCH_DEFAULT_BASE_URL, timeout := 5000, accessToken := "bearer-token" }

/-- An access-token-mode client state. -/
def accessTokenState : CoreState :=
  { accessMode := PirschAccessMode.accessToken, clientId := none, clientSecret := none,
    baseUrl := PIRSCH_DEFAULT_BASE_URL, timeout := 5000,
    accessToken := "pa_012345678901234567890123456789012345678901234" }

/-- A transport that always succeeds. -/
def stubEnv : Env :=
  { onRequest := fun _ => Except.ok (ApiData.val "ok"),
    onToken := fun _ => Except.ok "fresh-token" }

/-- A transport whose request endpoint always answers 401 and whose
token endpoint always succeeds. -/
def alwaysUnauthorizedEnv : Env :=
  { onRequest := fun _ => Except.error (pirschApiError 401 ["invalid token"]),
    onToken := fun _ => Except.ok "fresh-token" }

/-- Dropping the items marked by `p` keeps exactly `length - count` items. -/
theorem length_filter_not_countP {α : Type} (p : α → Bool) (l : List α) :
    (l.filter (fun x => ! p x)).length = l.length - l.countP p := by
  induction l with
  | nil => rfl
  | cons a l ih =>
    have hle : l.countP p ≤ l.length := List.countP_le_length p
    cases hpa : p a <;> simp [List.countP_cons, hpa, ih] <;> omega

/-! ## Claims -/

/-- C5: constructing a client with a clientId whose length is not 32 or
a clientSecret whose length is not 64 fails synchronously with a
configuration error before any network call (the constructor is a pure
function with no access to the transport); constructing with an access
token that does not start with "pa_" or whose total length is not
3 + 45 likewise fails synchronously; and constructing with neither an
accessToken nor a clientId/clientSecret field fails with the missing
credentials configuration error. -/
theorem claim_C5 (b : Option String) (t : Option Nat) (cid cs tok : String) :
    (cid.length ≠ PIRSCH_CLIENT_ID_LENGTH →
      makeClient { baseUrl := b, timeout := t, accessToken := none,
                   clientId := some cid, clientSecret := some cs }
        = Except.error (ConstructError.configError invalidClientIdMessage))
  ∧ (cid.length = PIRSCH_CLIENT_ID_LENGTH → cs.length ≠ PIRSCH_CLIENT_SECRET_LENGTH →
      makeClient { baseUrl := b, timeout := t, accessToken := none,
                   clientId := some cid, clientSecret := some cs }
        = Except.error (ConstructError.configError invalidClientIdMessage))
  ∧ (¬ strStartsWith tok PIRSCH_ACCESS_TOKEN_START →
      makeClient { baseUrl := b, timeout := t, accessToken := some tok,
                   clientId := none, clientSecret := none }
        = Except.error (ConstructError.configError invalidAccessTokenStartMessage))
  ∧ (strStartsWith tok PIRSCH_ACCESS_TOKEN_START →
     tok.length ≠ PIRSCH_ACCESS_TOKEN_LENGTH + PIRSCH_ACCESS_TOKEN_START.length →
      makeClient { baseUrl := b, timeout := t, accessToken := some tok,
                   clientId := none, clientSecret := none }
        = Except.error (ConstructError.configError invalidAccessTokenLengthMessage))
  ∧ makeClient { baseUrl := b, timeout := t, accessToken := none,
                 clientId := none, clientSecret := none }
      = Except.error (ConstructError.configError missingCredentialsMessage) := by
  simp only [PIRSCH_CLIENT_ID_LENGTH, PIRSCH_CLIENT_SECRET_LENGTH,
             PIRSCH_ACCESS_TOKEN_LENGTH, PIRSCH_ACCESS_TOKEN_START]
  refine ⟨fun h => ?_, fun h32 h64 => ?_, fun h => ?_, fun hs hl => ?_, ?_⟩
  · simp [makeClient, assertOauthCredentials, jsLength, PIRSCH_CLIENT_ID_LENGTH, h]
  · simp [makeClient, assertOauthCredentials, jsLength, PIRSCH_CLIENT_ID_LENGTH,
          PIRSCH_CLIENT_SECRET_LENGTH, h32, h64]
  · simp [makeClient, assertAccessTokenCredentials, jsStartsWith, jsLength,
          PIRSCH_ACCESS_TOKEN_START, h]
  · simp only [show ((45 : Nat) + "pa_".length = 48) from rfl] at hl
    simp [makeClient, assertAccessTokenCredentials, jsStartsWith, jsLength,
          PIRSCH_ACCESS_TOKEN_START, PIRSCH_ACCESS_TOKEN_LENGTH, hs, hl,
          show ((45 : Nat) + "pa_".length = 48) from rfl]
  · simp [makeClient]

/-- Witness for C5 at concrete configurations. -/
theorem claim_C5_witness :
    makeClient { baseUrl := none, timeout := none, accessToken := none,
                 clientId := some "short",
                 clientSecret := some "0123456789abcdef0123456789abcdef0123456789abcdef0123456789abcdef" }
      = Except.error (ConstructError.configError invalidClientIdMessage)
  ∧ makeClient { baseUrl := none, timeout := none, accessToken := none,
                 clientId := some "0123456789abcdef0123456789abcdef",
                 clientSecret := some "short" }
      = Except.error (ConstructError.configError invalidClientIdMessage)
  ∧ makeClient { baseUrl := none, timeout := none, accessToken := some "zz_0123",
                 clientId := none, clientSecret := none }
      = Except.error (ConstructError.configError invalidAccessTokenStartMessage)
  ∧ makeClient { baseUrl := none, timeout := none, accessToken := some "pa_0123",
                 clientId := none, clientSecret := none }
      = Except.error (ConstructError.configError invalidAccessTokenLengthMessage)
  ∧ makeClient { baseUrl := none, timeout := none, accessToken := none,
                 clientId := none, clientSecret := none }
      = Except.error (ConstructError.configError missingCredentialsMessage) := by
  refine ⟨?_, ?_, ?_, ?_, ?_⟩
  · exact (claim_C5 none none "short"
      "0123456789abcdef0123456789abcdef0123456789abcdef0123456789abcdef" "x").1 (by decide)
  · exact (claim_C5 none none "0123456789abcdef0123456789abcdef" "short" "x").2.1
      (by decide) (by decide)
  · exact (claim_C5 none none "a" "b" "zz_0123").2.2.1 (by decide)
  · exact (claim_C5 none none "a" "b" "pa_0123").2.2.2.1 (by decide) (by decide)
  · exact (claim_C5 none none "a" "b" "c").2.2.2.2

/-- C10: with a clientId of length exactly 32 and a clientSecret of a
length other than 64, construction throws the error whose message names
the Client ID and the length 32 (the copy-pasted client-ID message), and
that message mentions neither the client secret nor the length 64 — the
violated constraint is misreported. -/
theorem claim_C10 (cid cs : String)
    (h32 : cid.length = 32) (h64 : cs.length ≠ 64) :
    assertOauthCredentials (some cid) (some cs)
      = Except.error (ConstructError.configError invalidClientIdMessage)
  ∧ makeClient { baseUrl := none, timeout := none, accessToken := none,
                 clientId := some cid, clientSecret := some cs }
      = Except.error (ConstructError.configError invalidClientIdMessage)
  ∧ invalidClientIdMessage
      = "Invalid Client ID, should be of length " ++ sq ++ "32" ++ sq ++ "!"
  ∧ "Client ID".data <:+: invalidClientIdMessage.data
  ∧ "32".data <:+: invalidClientIdMessage.data
  ∧ ¬ "64".data <:+: invalidClientIdMessage.data
  ∧ ¬ "Secret".data <:+: invalidClientIdMessage.data := by
  refine ⟨?_, ?_, rfl, by decide, by decide, by decide, by decide⟩
  · simp [assertOauthCredentials, jsLength, PIRSCH_CLIENT_ID_LENGTH,
          PIRSCH_CLIENT_SECRET_LENGTH, h32, h64]
  · simp [makeClient, assertOauthCredentials, jsLength, PIRSCH_CLIENT_ID_LENGTH,
          PIRSCH_CLIENT_SECRET_LENGTH, h32, h64]

/-- Witness for C10 at a concrete 32-character clientId and a
5-character clientSecret. -/
theorem claim_C10_witness :
    assertOauthCredentials (some "0123456789abcdef0123456789abcdef") (some "short")
      = Except.error (ConstructError.configError invalidClientIdMessage) :=
  (claim_C10 "0123456789abcdef0123456789abcdef" "short" (by decide) (by decide)).1

/-- C3: every statistics-read method (including the domain lookup)
invoked on an access-token-mode client fails immediately with the
distinguished `PirschInvalidAccessModeApiError` naming the method; the
returned state and log are the initial ones, so zero transport
invocations and zero refresh calls are performed. -/
theorem claim_C3 (env : Env) (nm path : String)
    (hmem : (nm, path) ∈ statisticsMethods) (filter : Params)
    (s : CoreState) (log : List CallRecord)
    (hmode : s.accessMode = PirschAccessMode.accessToken) :
    statisticsRead env nm path filter s log
      = (Except.error (pirschInvalidAccessModeApiError nm), s, log)
  ∧ domain env s log = (Except.error (pirschInvalidAccessModeApiError "domain"), s, log)
  ∧ (pirschInvalidAccessModeApiError nm).name = "PirschInvalidAccessModeApiError" := by
  refine ⟨?_, ?_, rfl⟩
  · simp [statisticsRead, accessModeCheck, hmode]
  · simp [domain, accessModeCheck, hmode]

/-- Witness for C3: the `visitors` method on a concrete
access-token-mode client. -/
theorem claim_C3_witness :
    statisticsRead stubEnv "visitors" "statistics/visitor" [] accessTokenState []
      = (Except.error (pirschInvalidAccessModeApiError "visitors"), accessTokenState, []) :=
  (claim_C3 stubEnv "visitors" "statistics/visitor" (by decide) [] accessTokenState []
    (by decide)).1

/-- C7: on an access-token-mode client, a request whose first transport
attempt fails with 401 performs exactly one transport invocation and
zero token-endpoint calls, and the 401 is surfaced unchanged; moreover
`refreshToken` is a no-op in access-token mode (it never reaches the
token endpoint and leaves state and log untouched). -/
theorem claim_C7 (env : Env) (path : String) (data : Payload) (ps : Params)
    (s : CoreState)
    (hmode : s.accessMode = PirschAccessMode.accessToken)
    (htok : s.accessToken ≠ "")
    (hpath : generateUrl path ≠ authUrl)
    (e : PirschApiError) (h0 : env.onRequest 0 = Except.error e) (h401 : e.code = 401) :
    (performPost env path data true s []
       = (Except.error e, s,
          [{ url := generateUrl path, isPost := true, bearer := some s.accessToken,
             payload := some data, parameters := none }]))
  ∧ requestCalls (performPost env path data true s []).2.2 = 1
  ∧ tokenCalls (performPost env path data true s []).2.2 = 0
  ∧ (performGet env path ps true s []
       = (Except.error e, s,
          [{ url := generateUrl path, isPost := false, bearer := some s.accessToken,
             payload := none, parameters := some ps }]))
  ∧ requestCalls (performGet env path ps true s []).2.2 = 1
  ∧ tokenCalls (performGet env path ps true s []).2.2 = 0
  ∧ (∀ log1, refreshToken env s log1 = (none, s, log1)) := by
  have hpost : performPost env path data true s []
      = (Except.error e, s,
         [{ url := generateUrl path, isPost := true, bearer := some s.accessToken,
            payload := some data, parameters := none }]) := by
    simp [performPost, requestCalls, h0, hmode]
  have hget : performGet env path ps true s []
      = (Except.error e, s,
         [{ url := generateUrl path, isPost := false, bearer := some s.accessToken,
            payload := none, parameters := some ps }]) := by
    simp [performGet, getRequest, requestCalls, htok, h0, hmode]
  refine ⟨hpost, ?_, ?_, hget, ?_, ?_, fun log1 => by simp [refreshToken, hmode]⟩
  · simp [hpost, requestCalls, hpath]
  · simp [hpost, tokenCalls, hpath]
  · simp [hget, requestCalls, hpath]
  · simp [hget, tokenCalls, hpath]

/-- Witness for C7: a concrete access-token client receiving a 401 on a
hit POST. -/
theorem claim_C7_witness :
    performPost alwaysUnauthorizedEnv "hit" (Payload.hit plainHit) true accessTokenState []
      = (Except.error (pirschApiError 401 ["invalid token"]), accessTokenState,
         [{ url := generateUrl "hit", isPost := true,
            bearer := some accessTokenState.accessToken,
            payload := some (Payload.hit plainHit), parameters := none }]) :=
  (claim_C7 alwaysUnauthorizedEnv "hit" (Payload.hit plainHit) [] accessTokenState
    (by decide) (by decide) (by decide) (pirschApiError 401 ["invalid token"]) rfl rfl).1

/-- C6: the domain lookup on an OAuth-mode client post-processes an
array response by yielding the domain-not-found error object (code 404)
for the empty array, and the first element for a non-empty array,
ignoring trailing elements. -/
theorem claim_C6 (env : Env) (s : CoreState)
    (hmode : s.accessMode = PirschAccessMode.oauth)
    (items : List String)
    (h0 : env.onRequest 0 = Except.ok (ApiData.arr items)) :
    (items = [] →
      (domain env s []).1 = Except.ok (DomainOutcome.missing pirschDomainNotFoundApiError))
  ∧ (∀ d rest, items = d :: rest →
      (domain env s []).1 = Except.ok (DomainOutcome.found d))
  ∧ pirschDomainNotFoundApiError.code = 404 := by
  have hbase : (performGet env "domain" [] true s []).1 = Except.ok (ApiData.arr items) := by
    by_cases htok : s.accessToken = ""
    · rcases ht : env.onToken 0 with t | et <;>
        simp [performGet, getRequest, getRequest, refreshToken, requestCalls, tokenCalls, htok, hmode, ht, h0, authUrl]
    · simp [performGet, getRequest, requestCalls, htok, h0]
  refine ⟨?_, ?_, rfl⟩
  · intro hnil
    subst hnil
    simp [domain, accessModeCheck, hmode]
    split
    · next heq => simp [hbase] at heq
    · next r heq => simp [hbase] at heq; simp [← heq]
  · intro d rest hcons
    subst hcons
    simp [domain, accessModeCheck, hmode]
    split
    · next heq => simp [hbase] at heq
    · next r heq => simp [hbase] at heq; simp [← heq]

/-- C2: every tracking call (hit, event, session) whose payload has
`dnt = "1"` makes no transport invocation and resolves successfully with
untouched state; every batch tracking call over N items of which k carry
`dnt = "1"` sends exactly the N−k remaining items (for events, their
built batch-event records) in one batch POST when the transport
succeeds, and makes no call at all when k = N. -/
theorem claim_C2 (env : Env) (h : Hit) (se : Session) (nm : String) (dur : Nat)
    (meta : Option (List (String × Scalar)))
    (hs : List BatchHit) (ss : List BatchSession) (es : List EventInput)
    (s : CoreState) :
    (h.dnt = some "1" → hit env h s [] = (Except.ok (), s, []))
  ∧ (h.dnt = some "1" → event env nm h dur meta s [] = (Except.ok (), s, []))
  ∧ (se.dnt = some "1" → session env se s [] = (Except.ok (), s, []))
  ∧ (hs.filter (fun x => x.dnt != some "1")).length
      = hs.length - hs.countP (fun x => x.dnt == some "1")
  ∧ (hs.countP (fun x => x.dnt == some "1") = hs.length →
      batchHits env hs s [] = (Except.ok (), s, []))
  ∧ (∀ d, env.onRequest 0 = Except.ok d →
      hs.filter (fun x => x.dnt != some "1") ≠ [] →
      batchHits env hs s []
        = (Except.ok (), s,
           [{ url := generateUrl "hit/batch", isPost := true, bearer := some s.accessToken,
              payload := some (Payload.hits (hs.filter (fun x => x.dnt != some "1"))),
              parameters := none }]))
  ∧ (ss.filter (fun x => x.dnt != some "1")).length
      = ss.length - ss.countP (fun x => x.dnt == some "1")
  ∧ (ss.countP (fun x => x.dnt == some "1") = ss.length →
      batchSessions env ss s [] = (Except.ok (), s, []))
  ∧ (∀ d, env.onRequest 0 = Except.ok d →
      ss.filter (fun x => x.dnt != some "1") ≠ [] →
      batchSessions env ss s []
        = (Except.ok (), s,
           [{ url := generateUrl "session/batch", isPost := true,
              bearer := some s.accessToken,
              payload := some (Payload.sessions (ss.filter (fun x => x.dnt != some "1"))),
              parameters := none }]))
  ∧ (es.filter (fun ev => ev.hit.dnt != some "1")).length
      = es.length - es.countP (fun ev => ev.hit.dnt == some "1")
  ∧ (es.countP (fun ev => ev.hit.dnt == some "1") = es.length →
      batchEvents env es s [] = (Except.ok (), s, []))
  ∧ (∀ d, env.onRequest 0 = Except.ok d →
      es.filter (fun ev => ev.hit.dnt != some "1") ≠ [] →
      batchEvents env es s []
        = (Except.ok (), s,
           [{ url := generateUrl "event/batch", isPost := true, bearer := some s.accessToken,
              payload := some (Payload.events
                ((es.filter (fun ev => ev.hit.dnt != some "1")).map (fun ev =>
                  ({ event_name := ev.name, event_duration := ev.duration.getD 0,
                     event_meta := prepareScalarObject ev.meta, time := ev.time,
                     hit := ev.hit } : BatchEvent)))),
              parameters := none }])) := by
  have hlen1 : (hs.filter (fun x => x.dnt != some "1")).length
      = hs.length - hs.countP (fun x => x.dnt == some "1") := by
    simpa [bne] using length_filter_not_countP (fun x : BatchHit => x.dnt == some "1") hs
  have hlen2 : (ss.filter (fun x => x.dnt != some "1")).length
      = ss.length - ss.countP (fun x => x.dnt == some "1") := by
    simpa [bne] using length_filter_not_countP (fun x : BatchSession => x.dnt == some "1") ss
  have hlen3 : (es.filter (fun ev => ev.hit.dnt != some "1")).length
      = es.length - es.countP (fun ev => ev.hit.dnt == some "1") := by
    simpa [bne] using
      length_filter_not_countP (fun ev : EventInput => ev.hit.dnt == some "1") es
  refine ⟨fun hd => by simp [hit, hd],
          fun hd => by simp [event, hd],
          fun hd => by simp [session, hd],
          hlen1, fun hk => ?_, fun d hok hne => ?_,
          hlen2, fun hk => ?_, fun d hok hne => ?_,
          hlen3, fun hk => ?_, fun d hok hne => ?_⟩
  · have : (hs.filter (fun x => x.dnt != some "1")).length = 0 := by omega
    simp [batchHits, this]
  · have hne0 : (hs.filter (fun x => x.dnt != some "1")).length ≠ 0 := by
      simpa [List.length_eq_zero] using hne
    simp [batchHits, performPost, requestCalls, hne0, hok]
  · have : (ss.filter (fun x => x.dnt != some "1")).length = 0 := by omega
    simp [batchSessions, this]
  · have hne0 : (ss.filter (fun x => x.dnt != some "1")).length ≠ 0 := by
      simpa [List.length_eq_zero] using hne
    simp [batchSessions, performPost, requestCalls, hne0, hok]
  · have : (es.filter (fun ev => ev.hit.dnt != some "1")).length = 0 := by omega
    simp [batchEvents, this]
  · have hne0 : (es.filter (fun ev => ev.hit.dnt != some "1")).length ≠ 0 := by
      simpa [List.length_eq_zero] using hne
    simp [batchEvents, performPost, requestCalls, hne0, hok]

/-- Witness for C2: a DNT hit makes no call; a batch of two hits with
one DNT item sends exactly the other one. -/
theorem claim_C2_witness :
    hit stubEnv dntHit oauthState [] = (Except.ok (), oauthState, [])
  ∧ batchHits stubEnv [dntBatchHit] oauthState [] = (Except.ok (), oauthState, [])
  ∧ batchHits stubEnv [dntBatchHit, plainBatchHit] oauthState []
      = (Except.ok (), oauthState,
         [{ url := generateUrl "hit/batch", isPost := true,
            bearer := some oauthState.accessToken,
            payload := some (Payload.hits [plainBatchHit]), parameters := none }]) := by
  have base := claim_C2 stubEnv dntHit dntSession "clicked" 0 none
    [dntBatchHit, plainBatchHit] [] [] oauthState
  have base1 := claim_C2 stubEnv dntHit dntSession "clicked" 0 none
    [dntBatchHit] [] [] oauthState
  refine ⟨base.1 (by decide), base1.2.2.2.2.1 (by decide), ?_⟩
  have hres := base.2.2.2.2.2.1 (ApiData.val "ok") rfl (by decide)
  simpa [show ([dntBatchHit, plainBatchHit].filter (fun x => x.dnt != some "1"))
      = [plainBatchHit] by decide] using hres

/-- The query loop of `getReferrer` returns the first non-empty present
parameter: it agrees with collecting the present values in order and
taking the first non-empty one. -/
theorem referrerFromQuery_eq_find (query : Query) (names : List String) :
    referrerFromQuery query names
      = (names.filterMap (searchParamsGet query)).find? (fun v => v != "") := by
  induction names with
  | nil => rfl
  | cons n rest ih =>
    rcases hq : searchParamsGet query n with _ | p
    · simp [referrerFromQuery, hq, ih]
    · by_cases hp : p = ""
      · simp [referrerFromQuery, hq, hp, ih]
      · simp [referrerFromQuery, hq, hp]

/-- C9 counterexample: with a `Referer` header that is present but holds
the empty string and a non-empty `ref` query parameter, the code returns
the query parameter, while the claim as stated ("equals the Referer
header if present") requires the empty header value. -/
theorem claim_C9_counterexample :
    getHeader [("referer", HeaderValue.str "")] "referer" = some ""
  ∧ getReferrer [("referer", HeaderValue.str "")] [("ref", "fromquery")] = "fromquery"
  ∧ ("fromquery" : String) ≠ "" :=
  ⟨rfl, rfl, by decide⟩

/-- C9 (amended): the referrer is resolved from the headers as the
`Referer` header if present, else the `Referrer` header if present, else
the empty string; when (and only when) that resolved value is the empty
string, it is replaced by the first non-empty value among the query
parameters `ref`, `referer`, `referrer`, `source`, `utm_source` (in that
order), and stays the empty string if none matches. -/
theorem claim_C9 (headers : Headers) (query : Query) :
    getReferrer headers query
      = (if (getHeader headers "referer").getD ((getHeader headers "referrer").getD "") = ""
         then ((PIRSCH_REFERRER_QUERY_PARAMETERS.filterMap (searchParamsGet query)).find?
                (fun v => v != "")).getD ""
         else (getHeader headers "referer").getD ((getHeader headers "referrer").getD "")) := by
  unfold getReferrer
  by_cases hres : (getHeader headers "referer").getD ((getHeader headers "referrer").getD "") = ""
  · rw [referrerFromQuery_eq_find]
    rcases hf : (PIRSCH_REFERRER_QUERY_PARAMETERS.filterMap (searchParamsGet query)).find?
        (fun v => v != "") with _ | v <;> simp [hres, hf]
  · simp [hres]

/-- An OAuth-mode state whose token is empty (unauthenticated). -/
def unauthOauthState : CoreState := { oauthState with accessToken := "" }

/-- A transport whose request endpoint answers 401 on the first attempt
and succeeds afterwards, with a working token endpoint. -/
def retryEnv : Env :=
  { onRequest := fun n =>
      if n = 0 then Except.error (pirschApiError 401 ["token expired"])
      else Except.ok (ApiData.arr []),
    onToken := fun _ => Except.ok "fresh-token" }

/-- C1 counterexample: a statistics GET issued by an unauthenticated
OAuth client whose first transport attempt fails with 401 performs two
token refresh calls in total (one proactive before the first attempt,
one after the 401), not one as the claim states. -/
theorem claim_C1_counterexample :
    unauthOauthState.accessMode = PirschAccessMode.oauth
  ∧ retryEnv.onRequest 0 = Except.error (pirschApiError 401 ["token expired"])
  ∧ (pirschApiError 401 ["token expired"]).code = 401
  ∧ (performGet retryEnv "statistics/visitor" [] true unauthOauthState []).1
      = Except.ok (ApiData.arr [])
  ∧ requestCalls (performGet retryEnv "statistics/visitor" [] true unauthOauthState []).2.2 = 2
  ∧ tokenCalls (performGet retryEnv "statistics/visitor" [] true unauthOauthState []).2.2 = 2 :=
  ⟨rfl, rfl, rfl, rfl, rfl, rfl⟩

/-- C1 (amended): for an OAuth-mode client whose first transport attempt
fails with normalized status 401, the client performs exactly one
further token refresh followed by exactly one repeat of the same
request; the repeat outcome (success or a second 401 or any other
error) is surfaced with no further retries.  The totals are 2 transport
invocations and 1 refresh call, except that a GET issued while the
stored token is empty additionally performs a proactive refresh before
the first attempt, for 2 refresh calls in total. -/
theorem claim_C1 (env : Env) (path : String) (data : Payload) (ps : Params)
    (s : CoreState) (hmode : s.accessMode = PirschAccessMode.oauth)
    (hpath : generateUrl path ≠ authUrl)
    (e : PirschApiError) (h0 : env.onRequest 0 = Except.error e) (h401 : e.code = 401) :
    (requestCalls (performPost env path data true s []).2.2 = 2
      ∧ tokenCalls (performPost env path data true s []).2.2 = 1
      ∧ (performPost env path data true s []).1 = (env.onRequest 1).map (fun _ => ()))
  ∧ (s.accessToken ≠ "" →
      requestCalls (performGet env path ps true s []).2.2 = 2
      ∧ tokenCalls (performGet env path ps true s []).2.2 = 1
      ∧ (performGet env path ps true s []).1 = env.onRequest 1)
  ∧ (s.accessToken = "" →
      requestCalls (performGet env path ps true s []).2.2 = 2
      ∧ tokenCalls (performGet env path ps true s []).2.2 = 2
      ∧ (performGet env path ps true s []).1 = env.onRequest 1) := by
  refine ⟨?_, fun htok => ?_, fun htok => ?_⟩
  · rcases ht0 : env.onToken 0 with et | t <;>
      rcases h1 : env.onRequest 1 with e1 | d1 <;>
      simp [performPost, refreshToken, requestCalls, tokenCalls, h0, h1, h401, hmode, hpath,
            ht0, Except.map]
  · rcases ht0 : env.onToken 0 with et | t <;>
      rcases h1 : env.onRequest 1 with e1 | d1 <;>
      simp [performGet, getRequest, refreshToken, requestCalls, tokenCalls, h0, h1, h401, hmode, hpath,
            htok, ht0]
  · rcases ht0 : env.onToken 0 with et | t <;>
      rcases ht1 : env.onToken 1 with et1 | t1 <;>
      rcases h1 : env.onRequest 1 with e1 | d1 <;>
      simp [performGet, getRequest, refreshToken, requestCalls, tokenCalls, h0, h1, h401, hmode, hpath,
            htok, ht0, ht1]

/-- Witness for C1: a concrete OAuth client against a transport that
answers 401 once and then succeeds. -/
theorem claim_C1_witness :
    (requestCalls (performPost retryEnv "hit" (Payload.hit plainHit) true oauthState []).2.2 = 2
      ∧ tokenCalls (performPost retryEnv "hit" (Payload.hit plainHit) true oauthState []).2.2 = 1)
  ∧ tokenCalls (performGet retryEnv "statistics/visitor" [] true unauthOauthState []).2.2 = 2 := by
  have hpost := claim_C1 retryEnv "hit" (Payload.hit plainHit) [] oauthState rfl (by decide)
    (pirschApiError 401 ["token expired"]) rfl rfl
  have hget := claim_C1 retryEnv "statistics/visitor" (Payload.hit plainHit) [] unauthOauthState
    rfl (by decide) (pirschApiError 401 ["token expired"]) rfl rfl
  exact ⟨⟨hpost.1.1, hpost.1.2.1⟩, (hget.2.2 rfl).2.1⟩

/-- A transport on which the first request attempt fails with 401, the
token refresh itself fails, and the repeated attempt fails with a
distinct second 401. -/
def refreshFailureEnv : Env :=
  { onRequest := fun n =>
      if n = 0 then Except.error (pirschApiError 401 ["first auth error"])
      else Except.error (pirschApiError 401 ["second auth error"]),
    onToken := fun _ => Except.error (pirschApiError 500 ["refresh failed"]) }

/-- C4 counterexample: the first attempt fails with 401 and the refresh
fails with a 500 error, yet the error surfaced to the caller is the
second attempt result — not the refresh failure, which is discarded. -/
theorem claim_C4_counterexample :
    (performPost refreshFailureEnv "hit" (Payload.hit plainHit) true oauthState []).1
      = Except.error (pirschApiError 401 ["second auth error"])
  ∧ pirschApiError 401 ["second auth error"] ≠ pirschApiError 500 ["refresh failed"]
  ∧ tokenCalls (performPost refreshFailureEnv "hit" (Payload.hit plainHit) true oauthState []).2.2
      = 1 :=
  ⟨rfl, by decide, rfl⟩

/-- C4 (amended): when the refresh during the retry flow fails, its
failure is discarded (refreshToken returns the error and the caller
ignores it): the token is cleared to the empty string, the request is
repeated once with an empty bearer token, and the caller observes the
outcome of that repeat attempt in place of the original error. -/
theorem claim_C4 (env : Env) (path : String) (data : Payload)
    (s : CoreState) (hmode : s.accessMode = PirschAccessMode.oauth)
    (hpath : generateUrl path ≠ authUrl)
    (e er : PirschApiError) (h0 : env.onRequest 0 = Except.error e) (h401 : e.code = 401)
    (hrt : env.onToken 0 = Except.error er) :
    (performPost env path data true s []).1 = (env.onRequest 1).map (fun _ => ())
  ∧ (performPost env path data true s []).2.1.accessToken = ""
  ∧ (performPost env path data true s []).2.2
      = [{ url := generateUrl path, isPost := true, bearer := some s.accessToken,
           payload := some data, parameters := none },
         { url := authUrl, isPost := true, bearer := none,
           payload := some (Payload.credentials s.clientId s.clientSecret),
           parameters := none },
         { url := generateUrl path, isPost := true, bearer := some "",
           payload := some data, parameters := none }] := by
  rcases h1 : env.onRequest 1 with e1 | d1 <;>
    simp [performPost, refreshToken, requestCalls, tokenCalls, h0, h1, h401, hmode, hpath,
          hrt, Except.map]

/-- Witness for C4: the concrete refresh-failure scenario. -/
theorem claim_C4_witness :
    (performPost refreshFailureEnv "hit" (Payload.hit plainHit) true oauthState []).1
      = Except.error (pirschApiError 401 ["second auth error"])
  ∧ (performPost refreshFailureEnv "hit" (Payload.hit plainHit) true oauthState []).2.1.accessToken
      = "" := by
  have h := claim_C4 refreshFailureEnv "hit" (Payload.hit plainHit) oauthState rfl (by decide)
    (pirschApiError 401 ["first auth error"]) (pirschApiError 500 ["refresh failed"]) rfl rfl rfl
  exact ⟨h.1, h.2.1⟩

/-- All session fields other than `accessToken` agree. -/
def preservesConfig (s s1 : CoreState) : Prop :=
  s1.accessMode = s.accessMode ∧ s1.clientId = s.clientId ∧ s1.clientSecret = s.clientSecret
    ∧ s1.baseUrl = s.baseUrl ∧ s1.timeout = s.timeout

theorem preservesConfig_rfl (s : CoreState) : preservesConfig s s :=
  ⟨rfl, rfl, rfl, rfl, rfl⟩

theorem tokenCalls_append (a b : List CallRecord) :
    tokenCalls (a ++ b) = tokenCalls a + tokenCalls b := by
  simp [tokenCalls, List.filter_append]

theorem refreshToken_config (env : Env) (s : CoreState) (log : List CallRecord) :
    preservesConfig s (refreshToken env s log).2.1 := by
  by_cases hm : s.accessMode = PirschAccessMode.accessToken
  · simp [refreshToken, hm, preservesConfig_rfl]
  · rcases ht : env.onToken (tokenCalls log) with et | t <;>
      simp [refreshToken, hm, ht, preservesConfig]

/-- When `refreshToken` actually runs in OAuth mode it appends exactly
one token-endpoint record to the log. -/
theorem refreshToken_tokenCalls (env : Env) (s : CoreState) (log : List CallRecord)
    (hm : s.accessMode = PirschAccessMode.oauth) :
    tokenCalls (refreshToken env s log).2.2 = tokenCalls log + 1 := by
  have hone : ∀ p, tokenCalls [({ url := authUrl, isPost := true, bearer := none,
                                  payload := p, parameters := none } : CallRecord)] = 1 := by
    intro p
    simp [tokenCalls]
  rcases ht : env.onToken (tokenCalls log) with et | t <;>
    simp [refreshToken, hm, ht, tokenCalls_append, hone]

theorem preservesConfig_trans {s s1 s2 : CoreState} (h1 : preservesConfig s s1)
    (h2 : preservesConfig s1 s2) : preservesConfig s s2 :=
  ⟨h2.1.trans h1.1, h2.2.1.trans h1.2.1, h2.2.2.1.trans h1.2.2.1,
   h2.2.2.2.1.trans h1.2.2.2.1, h2.2.2.2.2.trans h1.2.2.2.2⟩

theorem performPost_config (env : Env) (path : String) (data : Payload) (retry : Bool)
    (s : CoreState) (log : List CallRecord) :
    preservesConfig s (performPost env path data retry s log).2.1 := by
  rcases h0 : env.onRequest (requestCalls log) with e | d
  · by_cases hc : s.accessMode = PirschAccessMode.oauth ∧ e.code = 401 ∧ retry = true
    · rcases h1 : env.onRequest (requestCalls (refreshToken env s
          (log ++ [{ url := generateUrl path, isPost := true, bearer := some s.accessToken,
                     payload := some data, parameters := none }])).2.2) with e1 | d1 <;>
        · simp only [performPost, h0, hc, and_self, if_true, h1]
          exact refreshToken_config env s _
    · simp only [performPost, h0]
      rw [if_neg hc]
      exact preservesConfig_rfl s
  · simp only [performPost, h0]
    exact preservesConfig_rfl s

/-- `performPost` on a non-token path either leaves state and
token-call count untouched, or at least one refresh call was made
(so every token mutation is attributable to `refreshToken`). -/
theorem performPost_state_cases (env : Env) (path : String) (data : Payload)
    (retry : Bool) (s : CoreState) (log : List CallRecord)
    (hpath : generateUrl path ≠ authUrl) :
    ((performPost env path data retry s log).2.1 = s
      ∧ tokenCalls (performPost env path data retry s log).2.2 = tokenCalls log)
  ∨ tokenCalls (performPost env path data retry s log).2.2 ≥ tokenCalls log + 1 := by
  have hzero : ∀ b p q, tokenCalls [({ url := generateUrl path, isPost := b, bearer := q,
                                       payload := p, parameters := none } : CallRecord)] = 0 := by
    intro b p q
    simp [tokenCalls, hpath]
  rcases h0 : env.onRequest (requestCalls log) with e | d
  · by_cases hc : s.accessMode = PirschAccessMode.oauth ∧ e.code = 401 ∧ retry = true
    · right
      have htc := refreshToken_tokenCalls env s
        (log ++ [{ url := generateUrl path, isPost := true, bearer := some s.accessToken,
                   payload := some data, parameters := none }]) hc.1
      rcases h1 : env.onRequest (requestCalls (refreshToken env s
          (log ++ [{ url := generateUrl path, isPost := true, bearer := some s.accessToken,
                     payload := some data, parameters := none }])).2.2) with e1 | d1 <;>
        · simp only [performPost, h0, hc, and_self, if_true, h1]
          simp only [tokenCalls_append, hzero] at htc ⊢
          omega
    · left
      simp only [performPost, h0]
      rw [if_neg hc]
      exact ⟨by simp, by simp [tokenCalls_append, hzero]⟩
  · left
    simp only [performPost, h0]
    exact ⟨by simp, by simp [tokenCalls_append, hzero]⟩

theorem getRequest_config (env : Env) (path : String) (ps : Params) (retry : Bool)
    (s0 : CoreState) (log0 : List CallRecord) :
    preservesConfig s0 (getRequest env path ps retry s0 log0).2.1 := by
  rcases h0 : env.onRequest (requestCalls log0) with e | d
  · by_cases hc : s0.accessMode = PirschAccessMode.oauth ∧ e.code = 401 ∧ retry = true
    · rcases h1 : env.onRequest (requestCalls (refreshToken env s0
          (log0 ++ [{ url := generateUrl path, isPost := false, bearer := some s0.accessToken,
                      payload := none, parameters := some ps }])).2.2) with e1 | d1 <;>
        · simp only [getRequest, h0, hc, and_self, if_true, h1]
          exact refreshToken_config env s0 _
    · simp only [getRequest, h0]
      rw [if_neg hc]
      exact preservesConfig_rfl s0
  · simp only [getRequest, h0]
    exact preservesConfig_rfl s0

theorem performGet_config (env : Env) (path : String) (ps : Params) (retry : Bool)
    (s : CoreState) (log : List CallRecord) :
    preservesConfig s (performGet env path ps retry s log).2.1 := by
  by_cases hpre : s.accessToken = "" ∧ retry = true
  · have h1 := getRequest_config env path ps retry (refreshToken env s log).2.1
      (refreshToken env s log).2.2
    have h0 := refreshToken_config env s log
    have := preservesConfig_trans h0 h1
    simpa only [performGet, if_pos hpre] using this
  · have := getRequest_config env path ps retry s log
    simpa only [performGet, if_neg hpre] using this

theorem getRequest_state_cases (env : Env) (path : String) (ps : Params)
    (retry : Bool) (s0 : CoreState) (log0 : List CallRecord)
    (hpath : generateUrl path ≠ authUrl) :
    ((getRequest env path ps retry s0 log0).2.1 = s0
      ∧ tokenCalls (getRequest env path ps retry s0 log0).2.2 = tokenCalls log0)
  ∨ tokenCalls (getRequest env path ps retry s0 log0).2.2 ≥ tokenCalls log0 + 1 := by
  have hzero : ∀ p, tokenCalls [({ url := generateUrl path, isPost := false, bearer := p,
                                   payload := none, parameters := some ps } : CallRecord)]
      = 0 := by
    intro p
    simp [tokenCalls, hpath]
  rcases h0 : env.onRequest (requestCalls log0) with e | d
  · by_cases hc : s0.accessMode = PirschAccessMode.oauth ∧ e.code = 401 ∧ retry = true
    · right
      have htc := refreshToken_tokenCalls env s0
        (log0 ++ [{ url := generateUrl path, isPost := false, bearer := some s0.accessToken,
                    payload := none, parameters := some ps }]) hc.1
      rcases h1 : env.onRequest (requestCalls (refreshToken env s0
          (log0 ++ [{ url := generateUrl path, isPost := false, bearer := some s0.accessToken,
                      payload := none, parameters := some ps }])).2.2) with e1 | d1 <;>
        · simp only [getRequest, h0, hc, and_self, if_true, h1]
          simp only [tokenCalls_append, hzero] at htc ⊢
          omega
    · left
      simp only [getRequest, h0]
      rw [if_neg hc]
      exact ⟨by simp, by simp [tokenCalls_append, hzero]⟩
  · left
    simp only [getRequest, h0]
    exact ⟨by simp, by simp [tokenCalls_append, hzero]⟩

/-- `performGet` on a non-token path either leaves state and
token-call count untouched, or at least one refresh call was made. -/
theorem performGet_state_cases (env : Env) (path : String) (ps : Params)
    (retry : Bool) (s : CoreState) (log : List CallRecord)
    (hpath : generateUrl path ≠ authUrl) :
    ((performGet env path ps retry s log).2.1 = s
      ∧ tokenCalls (performGet env path ps retry s log).2.2 = tokenCalls log)
  ∨ tokenCalls (performGet env path ps retry s log).2.2 ≥ tokenCalls log + 1 := by
  by_cases hpre : s.accessToken = "" ∧ retry = true
  · by_cases hm : s.accessMode = PirschAccessMode.accessToken
    · have hid : refreshToken env s log = (none, s, log) := by simp [refreshToken, hm]
      have := getRequest_state_cases env path ps retry s log hpath
      simpa only [performGet, if_pos hpre, hid] using this
    · right
      have hmo : s.accessMode = PirschAccessMode.oauth := by
        cases ha : s.accessMode
        · rfl
        · exact absurd ha hm
      have htc := refreshToken_tokenCalls env s log hmo
      have hkey := getRequest_state_cases env path ps retry (refreshToken env s log).2.1
        (refreshToken env s log).2.2 hpath
      rw [performGet, if_pos hpre]
      rcases hkey with ⟨_, heq⟩ | hge
      · simp only [heq, htc]
        omega
      · omega
  · have := getRequest_state_cases env path ps retry s log hpath
    simpa only [performGet, if_neg hpre] using this

/-- C8: the session state discipline.  `refreshToken` is the only
operation that mutates `accessToken`: in access-token mode it is a
no-op; in OAuth mode it stores the token returned by the token endpoint
on success and clears the token to the empty string (the
unauthenticated state) on failure.  Every operation preserves all other
session fields (access mode, clientId, clientSecret, baseUrl, timeout),
and a run of `performPost`/`performGet` that makes no token-endpoint
call leaves the whole state — `accessToken` included — unchanged. -/
theorem claim_C8 :
    (∀ env s log, s.accessMode = PirschAccessMode.accessToken →
        refreshToken env s log = (none, s, log))
  ∧ (∀ env s log t, s.accessMode = PirschAccessMode.oauth →
        env.onToken (tokenCalls log) = Except.ok t →
        refreshToken env s log = (none, { s with accessToken := t },
          log ++ [{ url := authUrl, isPost := true, bearer := none,
                    payload := some (Payload.credentials s.clientId s.clientSecret),
                    parameters := none }]))
  ∧ (∀ env s log er, s.accessMode = PirschAccessMode.oauth →
        env.onToken (tokenCalls log) = Except.error er →
        refreshToken env s log = (some er, { s with accessToken := "" },
          log ++ [{ url := authUrl, isPost := true, bearer := none,
                    payload := some (Payload.credentials s.clientId s.clientSecret),
                    parameters := none }]))
  ∧ (∀ env s log, preservesConfig s (refreshToken env s log).2.1)
  ∧ (∀ env path data retry s log,
        preservesConfig s (performPost env path data retry s log).2.1)
  ∧ (∀ env path ps retry s log,
        preservesConfig s (performGet env path ps retry s log).2.1)
  ∧ (∀ env path data retry s log, generateUrl path ≠ authUrl →
        tokenCalls (performPost env path data retry s log).2.2 = tokenCalls log →
        (performPost env path data retry s log).2.1 = s)
  ∧ (∀ env path ps retry s log, generateUrl path ≠ authUrl →
        tokenCalls (performGet env path ps retry s log).2.2 = tokenCalls log →
        (performGet env path ps retry s log).2.1 = s)
  ∧ (∀ env h s log, preservesConfig s (hit env h s log).2.1)
  ∧ (∀ env hs s log, preservesConfig s (batchHits env hs s log).2.1)
  ∧ (∀ env nm h dur meta s log, preservesConfig s (event env nm h dur meta s log).2.1)
  ∧ (∀ env es s log, preservesConfig s (batchEvents env es s log).2.1)
  ∧ (∀ env se s log, preservesConfig s (session env se s log).2.1)
  ∧ (∀ env ss s log, preservesConfig s (batchSessions env ss s log).2.1)
  ∧ (∀ env nm path f s log, preservesConfig s (statisticsRead env nm path f s log).2.1)
  ∧ (∀ env s log, preservesConfig s (domain env s log).2.1) := by
  refine ⟨?_, ?_, ?_, ?_, ?_, ?_, ?_, ?_, ?_, ?_, ?_, ?_, ?_, ?_, ?_, ?_⟩
  · intro env s log hm
    simp [refreshToken, hm]
  · intro env s log t hm ht
    simp [refreshToken, hm, ht, authUrl]
  · intro env s log er hm ht
    simp [refreshToken, hm, ht, authUrl]
  · intro env s log
    exact refreshToken_config env s log
  · intro env path data retry s log
    exact performPost_config env path data retry s log
  · intro env path ps retry s log
    exact performGet_config env path ps retry s log
  · intro env path data retry s log hpath hnone
    rcases performPost_state_cases env path data retry s log hpath with ⟨hstate, _⟩ | hge
    · exact hstate
    · omega
  · intro env path ps retry s log hpath hnone
    rcases performGet_state_cases env path ps retry s log hpath with ⟨hstate, _⟩ | hge
    · exact hstate
    · omega
  · intro env h s log
    by_cases hd : h.dnt = some "1"
    · simpa [hit, hd] using preservesConfig_rfl s
    · simpa [hit, hd] using performPost_config env "hit" (Payload.hit h) true s log
  · intro env hs s log
    by_cases hf : (hs.filter (fun x => x.dnt != some "1")).length = 0
    · simpa [batchHits, hf] using preservesConfig_rfl s
    · simpa [batchHits, hf] using performPost_config env "hit/batch"
        (Payload.hits (hs.filter (fun x => x.dnt != some "1"))) true s log
  · intro env nm h dur meta s log
    by_cases hd : h.dnt = some "1"
    · simpa [event, hd] using preservesConfig_rfl s
    · simpa [event, hd] using performPost_config env "event"
        (Payload.event { event_name := nm, event_duration := dur,
                         event_meta := prepareScalarObject meta, hit := h }) true s log
  · intro env es s log
    by_cases hf : (es.filter (fun ev => ev.hit.dnt != some "1")).length = 0
    · simpa [batchEvents, hf] using preservesConfig_rfl s
    · simpa [batchEvents, hf] using performPost_config env "event/batch"
        (Payload.events ((es.filter (fun ev => ev.hit.dnt != some "1")).map (fun ev =>
          ({ event_name := ev.name, event_duration := ev.duration.getD 0,
             event_meta := prepareScalarObject ev.meta, time := ev.time,
             hit := ev.hit } : BatchEvent)))) true s log
  · intro env se s log
    by_cases hd : se.dnt = some "1"
    · simpa [session, hd] using preservesConfig_rfl s
    · simpa [session, hd] using performPost_config env "session" (Payload.session se) true s log
  · intro env ss s log
    by_cases hf : (ss.filter (fun x => x.dnt != some "1")).length = 0
    · simpa [batchSessions, hf] using preservesConfig_rfl s
    · simpa [batchSessions, hf] using performPost_config env "session/batch"
        (Payload.sessions (ss.filter (fun x => x.dnt != some "1"))) true s log
  · intro env nm path f s log
    by_cases hm : s.accessMode = PirschAccessMode.accessToken
    · simpa [statisticsRead, accessModeCheck, hm] using preservesConfig_rfl s
    · simpa [statisticsRead, accessModeCheck, hm, performFilteredGet] using
        performGet_config env path f true s log
  · intro env s log
    by_cases hm : s.accessMode = PirschAccessMode.accessToken
    · simpa [domain, accessModeCheck, hm] using preservesConfig_rfl s
    · have hnone : accessModeCheck "domain" s = none := by simp [accessModeCheck, hm]
      have hcfg := performGet_config env "domain" [] true s log
      simp only [domain, hnone]
      split <;> try exact hcfg
      all_goals split <;> try exact hcfg
      all_goals split <;> exact hcfg

/-- Witness for C8: concrete refresh runs and a no-refresh POST. -/
theorem claim_C8_witness :
    refreshToken stubEnv accessTokenState [] = (none, accessTokenState, [])
  ∧ refreshToken stubEnv oauthState []
      = (none, { oauthState with accessToken := "fresh-token" },
         [{ url := authUrl, isPost := true, bearer := none,
            payload := some (Payload.credentials oauthState.clientId oauthState.clientSecret),
            parameters := none }])
  ∧ (performPost stubEnv "hit" (Payload.hit plainHit) true oauthState []).2.1 = oauthState := by
  have h := claim_C8
  refine ⟨h.1 stubEnv accessTokenState [] rfl,
          h.2.1 stubEnv oauthState [] "fresh-token" rfl rfl, ?_⟩
  exact h.2.2.2.2.2.2.1 stubEnv "hit" (Payload.hit plainHit) true oauthState []
    (by decide) rfl

/-- A transport that returns two domains on every GET. -/
def twoDomainsEnv : Env :=
  { onRequest := fun _ => Except.ok (ApiData.arr ["domain-one", "domain-two"]),
    onToken := fun _ => Except.ok "fresh-token" }

/-- A transport that returns an empty domain array on every GET. -/
def noDomainsEnv : Env :=
  { onRequest := fun _ => Except.ok (ApiData.arr []),
    onToken := fun _ => Except.ok "fresh-token" }

/-- Witness for C6: a two-element array yields the first domain, an
empty array yields the not-found error object. -/
theorem claim_C6_witness :
    (domain twoDomainsEnv oauthState []).1 = Except.ok (DomainOutcome.found "domain-one")
  ∧ (domain noDomainsEnv oauthState []).1
      = Except.ok (DomainOutcome.missing pirschDomainNotFoundApiError) :=
  ⟨(claim_C6 twoDomainsEnv oauthState rfl ["domain-one", "domain-two"] rfl).2.1
      "domain-one" ["domain-two"] rfl,
   (claim_C6 noDomainsEnv oauthState rfl [] rfl).1 rfl⟩

/-- Witness for C9: the characterization evaluated at a concrete header
map and query string. -/
theorem claim_C9_witness :
    getReferrer [("referrer", HeaderValue.str "https://a.example")] [("ref", "ignored")]
      = "https://a.example" := by
  have h := claim_C9 [("referrer", HeaderValue.str "https://a.example")] [("ref", "ignored")]
  simpa using h

end PirschSDK
